import Mathlib

/-!
Verification development for the phase-3 chatbot backend of the
hackathon-todo repository: a shallow embedding of `tools.py` (the tool
registry and the five task-CRUD handlers), `agent.py` (`run_agent`, the
orchestration loop over an abstract model gateway) and `main.py` (the
`chat` request handler and conversation listing), together with theorems
settling the frozen claims about the orchestration loop, tool dispatch,
persistence and concurrency behaviour.

Machine integers do not overflow in the modelled code paths; ids and
timestamps are represented as `Nat`, JSON integers as `Int`.
-/

namespace Hackathon

/-! ## JSON payloads

The tool handlers in `tools.py` build Python dicts of scalars (or a list
of such dicts for `list_tasks`) and return `json.dumps(result)`.  We model
exactly those shapes: a scalar, an object of scalars, or an array of
objects of scalars. -/

/-- A scalar JSON value as produced by the tool handlers. -/
inductive JPrim where
  | s (v : String)
  | i (v : Int)
  | b (v : Bool)
  deriving DecidableEq, Repr

/-- A flat JSON object: an ordered list of (key, scalar) fields. -/
abbrev JObj := List (String × JPrim)

/-- A tool-result JSON payload: object or array of objects. -/
inductive JValue where
  | obj (fields : JObj)
  | arr (items : List JObj)
  deriving DecidableEq, Repr

/-- Escape a character for a JSON string literal (quote and backslash,
as `json.dumps` does for the payloads at hand). -/
def escChar (c : Char) : String :=
  if c = '"' ∨ c = '\\' then "\\".push c else String.singleton c

/-- Escape a string for inclusion in a JSON string literal. -/
def escString (s : String) : String :=
  String.join (s.toList.map escChar)

/-- Render a scalar as JSON text. -/
def JPrim.render : JPrim → String
  | .s v => "\"" ++ escString v ++ "\""
  | .i v => toString v
  | .b v => if v then "true" else "false"

/-- Render the fields of a flat object, comma separated. -/
def renderFields : JObj → String
  | [] => ""
  | [(k, v)] => "\"" ++ escString k ++ "\": " ++ v.render
  | (k, v) :: rest =>
      "\"" ++ escString k ++ "\": " ++ v.render ++ ", " ++ renderFields rest

/-- Render a flat object as JSON text. -/
def renderObj (o : JObj) : String := "\x7b" ++ renderFields o ++ "\x7d"

/-- Render a list of objects, comma separated. -/
def renderItems : List JObj → String
  | [] => ""
  | [o] => renderObj o
  | o :: rest => renderObj o ++ ", " ++ renderItems rest

/-- The serialization `json.dumps` applied to a tool-result payload. -/
def JValue.render : JValue → String
  | .obj o => renderObj o
  | .arr items => "[" ++ renderItems items ++ "]"

/-! ## Task store (`models.py` Task table and the SQL queries in `tools.py`)

The task table is a list of rows plus the autoincrement counter for the
primary key.  Each handler in `tools.py` opens a session, runs one query
filtered by `Task.user_id == user_id`, and commits. -/

/-- A row of the `tasks` table (phase-2/phase-3 `Task` model). -/
structure Task where
  id : Nat
  user_id : String
  title : String
  description : String
  completed : Bool
  created_at : Nat
  deriving DecidableEq, Repr

/-- The task table: rows in insertion order plus the id autoincrement. -/
structure TaskDB where
  nextId : Nat
  tasks : List Task
  deriving DecidableEq, Repr

/-- The parsed JSON argument object of a tool call: the keys the five
handlers ever read (`title`, `description`, `status`, `task_id`), each
present or absent. -/
structure ToolArgs where
  title : Option String
  description : Option String
  status : Option String
  task_id : Option Int
  deriving DecidableEq, Repr

/-- The argument object with no keys set. -/
def noArgs : ToolArgs := ⟨none, none, none, none⟩

/-- A Python exception escaping a tool handler: `args[k]` on a missing
key raises `KeyError(k)`. -/
inductive PyError where
  | keyError (k : String)
  deriving DecidableEq, Repr

/-- `args["title"]`: the title or a raised `KeyError`. -/
def getTitle (args : ToolArgs) : Except PyError String :=
  match args.title with
  | some t => .ok t
  | none => .error (.keyError "title")

/-- `args["task_id"]`: the task id or a raised `KeyError`. -/
def getTaskId (args : ToolArgs) : Except PyError Int :=
  match args.task_id with
  | some t => .ok t
  | none => .error (.keyError "task_id")

/-- The `select(Task).where(Task.id == args["task_id"], Task.user_id ==
user_id)` query followed by `.first()`. -/
def findTask (u : String) (tid : Int) : List Task → Option Task :=
  List.find? (fun t => (t.id : Int) == tid && t.user_id == u)

/-- Commit `task.completed = True` on the first row matched by the
complete_task query. -/
def setCompletedFirst (u : String) (tid : Int) : List Task → List Task
  | [] => []
  | t :: ts =>
      if (t.id : Int) == tid && t.user_id == u then
        { t with completed := true } :: ts
      else
        t :: setCompletedFirst u tid ts

/-- Commit `session.delete(task)` on the first row matched by the
delete_task query. -/
def deleteFirst (u : String) (tid : Int) : List Task → List Task
  | [] => []
  | t :: ts =>
      if (t.id : Int) == tid && t.user_id == u then ts
      else t :: deleteFirst u tid ts

/-- Commit the optional title/description assignment of update_task on
the first row matched by its query. -/
def updateFirst (u : String) (tid : Int) (title description : Option String) :
    List Task → List Task
  | [] => []
  | t :: ts =>
      if (t.id : Int) == tid && t.user_id == u then
        { t with
          title := title.getD t.title,
          description := description.getD t.description } :: ts
      else
        t :: updateFirst u tid title description ts

/-- `add_task` from `tools.py`: insert a task for `user_id` with the
required `title` (`args["title"]`, raising `KeyError` when absent) and
optional description (`args.get("description", "")`), and return the
created payload.  `now` models `datetime.utcnow()` for `created_at`. -/
def add_task (now : Nat) (user_id : String) (args : ToolArgs) (db : TaskDB) :
    Except PyError (JValue × TaskDB) := do
  let title ← getTitle args
  let task : Task :=
    ⟨db.nextId, user_id, title, args.description.getD "", false, now⟩
  let result : JValue :=
    .obj [("task_id", .i task.id), ("status", .s "created"),
          ("title", .s task.title)]
  .ok (result, ⟨db.nextId + 1, db.tasks ++ [task]⟩)

/-- The JSON object serialized for one task row by `list_tasks`. -/
def taskToObj (t : Task) : JObj :=
  [("id", .i t.id), ("title", .s t.title), ("description", .s t.description),
   ("completed", .b t.completed), ("created_at", .i t.created_at)]

/-- `list_tasks` from `tools.py`: select the caller's tasks, narrowing by
the optional `status` filter (`args.get("status", "all")`). -/
def list_tasks (user_id : String) (args : ToolArgs) (db : TaskDB) :
    Except PyError (JValue × TaskDB) :=
  let base := db.tasks.filter (fun t => t.user_id == user_id)
  let status := args.status.getD "all"
  let filtered :=
    if status == "pending" then base.filter (fun t => t.completed == false)
    else if status == "completed" then base.filter (fun t => t.completed == true)
    else base
  .ok (.arr (filtered.map taskToObj), db)

/-- The `{"error": "Task not found"}` payload. -/
def errNotFound : JValue := .obj [("error", .s "Task not found")]

/-- `complete_task` from `tools.py`: mark the caller's task
`args["task_id"]` completed, or return the not-found error payload. -/
def complete_task (user_id : String) (args : ToolArgs) (db : TaskDB) :
    Except PyError (JValue × TaskDB) := do
  let tid ← getTaskId args
  match findTask user_id tid db.tasks with
  | none => .ok (errNotFound, db)
  | some task =>
      .ok (.obj [("task_id", .i task.id), ("status", .s "completed"),
                 ("title", .s task.title)],
           ⟨db.nextId, setCompletedFirst user_id tid db.tasks⟩)

/-- `delete_task` from `tools.py`: delete the caller's task
`args["task_id"]`, or return the not-found error payload. -/
def delete_task (user_id : String) (args : ToolArgs) (db : TaskDB) :
    Except PyError (JValue × TaskDB) := do
  let tid ← getTaskId args
  match findTask user_id tid db.tasks with
  | none => .ok (errNotFound, db)
  | some task =>
      .ok (.obj [("task_id", .i tid), ("status", .s "deleted"),
                 ("title", .s task.title)],
           ⟨db.nextId, deleteFirst user_id tid db.tasks⟩)

/-- `update_task` from `tools.py`: update title/description of the
caller's task `args["task_id"]` when present, or return the not-found
error payload. -/
def update_task (user_id : String) (args : ToolArgs) (db : TaskDB) :
    Except PyError (JValue × TaskDB) := do
  let tid ← getTaskId args
  match findTask user_id tid db.tasks with
  | none => .ok (errNotFound, db)
  | some task =>
      .ok (.obj [("task_id", .i task.id), ("status", .s "updated"),
                 ("title", .s (args.title.getD task.title))],
           ⟨db.nextId, updateFirst user_id tid args.title args.description db.tasks⟩)

/-- `execute_tool` from `tools.py`: dispatch on the tool name; an unknown
name yields the serialized `{"error": "Unknown tool: ..."}` payload. -/
def execute_tool (now : Nat) (user_id : String) (tool_name : String)
    (args : ToolArgs) (db : TaskDB) : Except PyError (JValue × TaskDB) :=
  if tool_name == "add_task" then add_task now user_id args db
  else if tool_name == "list_tasks" then list_tasks user_id args db
  else if tool_name == "complete_task" then complete_task user_id args db
  else if tool_name == "delete_task" then delete_task user_id args db
  else if tool_name == "update_task" then update_task user_id args db
  else .ok (.obj [("error", .s ("Unknown tool: " ++ tool_name))], db)

/-! ## Orchestration loop (`run_agent` in `agent.py`)

`run_agent` builds the transcript (system prompt plus history), calls the
chat-completions endpoint, and while the returned assistant message has
tool calls it appends that message, executes every call in order through
`execute_tool`, appends each serialized result as a `tool`-role message,
and calls the model again.  The model is abstracted as a gateway: a
function of the call index and the transcript so far, which either raises
(network/provider failure) or returns an assistant message. -/

/-- One requested tool invocation of an assistant message
(`tc.id`, `tc.function.name`, parsed `tc.function.arguments`). -/
structure ToolCallReq where
  id : String
  name : String
  arguments : ToolArgs
  deriving DecidableEq, Repr

/-- A transcript entry: role, content, and (for the messages `run_agent`
itself appends) the tool-call id of a tool result or the requested calls
of an assistant message. -/
structure TEntry where
  role : String
  content : Option String
  tool_call_id : Option String
  tool_calls : Option (List ToolCallReq)
  deriving DecidableEq, Repr

/-- A plain role/content transcript entry. -/
def mkEntry (role : String) (content : Option String) : TEntry :=
  ⟨role, content, none, none⟩

/-- The assistant message returned by one chat-completions call:
`message.content` and `message.tool_calls` (empty list models a missing
or empty `tool_calls`, on which the loop exits). -/
structure GwResult where
  content : Option String
  calls : List ToolCallReq
  deriving DecidableEq, Repr

/-- The Model Gateway: given the call index within the turn and the
transcript, raise a provider error or return the assistant message. -/
def Gateway : Type := Nat → List TEntry → Except String GwResult

/-- An exception escaping `run_agent`:  a `KeyError` raised by a tool
handler, or a failure of the chat-completions call. -/
inductive AgentError where
  | keyError (k : String)
  | gatewayError (m : String)
  deriving DecidableEq, Repr

/-- One entry of the tool-call log returned by `run_agent`:
`{"tool": name, "arguments": args, "result": json.loads(result)}`. -/
structure ToolLogEntry where
  tool : String
  arguments : ToolArgs
  result : JValue
  deriving DecidableEq, Repr

/-- The value returned by `run_agent`: the final assistant content and
the ordered tool-call log. -/
structure AgentResult where
  response : Option String
  tool_calls : List ToolLogEntry
  deriving DecidableEq, Repr

/-- The transcript entry `run_agent` appends for an assistant message
that requested tool calls. -/
def assistantCallsEntry (am : GwResult) : TEntry :=
  ⟨"assistant", am.content, none, some am.calls⟩

/-- The `tool`-role transcript entry holding one serialized result. -/
def toolResultEntry (callId : String) (result : JValue) : TEntry :=
  ⟨"tool", some result.render, some callId, none⟩

/-- The body of the `for tool_call in assistant_message.tool_calls` loop:
execute each call in order against the task store, appending the
serialized result to the transcript and the parsed result to the log.  A
`KeyError` raised by a handler aborts the remaining calls and propagates,
keeping the store mutations already committed. -/
def execCalls (now : Nat) (user_id : String) :
    List ToolCallReq → List TEntry → List ToolLogEntry → TaskDB →
    Except AgentError Unit × List TEntry × List ToolLogEntry × TaskDB
  | [], msgs, log, db => (.ok (), msgs, log, db)
  | c :: cs, msgs, log, db =>
      match execute_tool now user_id c.name c.arguments db with
      | .error (.keyError k) => (.error (.keyError k), msgs, log, db)
      | .ok (res, db') =>
          execCalls now user_id cs (msgs ++ [toolResultEntry c.id res])
            (log ++ [⟨c.name, c.arguments, res⟩]) db'

/-- The `while assistant_message.tool_calls` loop of `run_agent`,
embedded with explicit fuel: `none` means the loop is still running after
`fuel` further rounds (the source has no iteration bound of its own), and
`some` carries the outcome — the returned result or a raised exception —
together with the task store and the transcript at that point. -/
def runAgentLoop (gw : Gateway) (now : Nat) (user_id : String) :
    Nat → Nat → List TEntry → List ToolLogEntry → GwResult → TaskDB →
    Option (Except AgentError AgentResult × TaskDB × List TEntry)
  | fuel, callIdx, msgs, log, am, db =>
      match am.calls with
      | [] => some (.ok ⟨am.content, log⟩, db, msgs)
      | _ :: _ =>
          match fuel with
          | 0 => none
          | fuel' + 1 =>
              let msgs1 := msgs ++ [assistantCallsEntry am]
              match execCalls now user_id am.calls msgs1 log db with
              | (.error e, msgs2, _, db2) => some (.error e, db2, msgs2)
              | (.ok _, msgs2, log2, db2) =>
                  match gw callIdx msgs2 with
                  | .error m => some (.error (.gatewayError m), db2, msgs2)
                  | .ok am' =>
                      runAgentLoop gw now user_id fuel' (callIdx + 1)
                        msgs2 log2 am' db2

/-- The static system prompt entry prepended by `run_agent`. -/
def systemEntry : TEntry :=
  mkEntry "system" (some "You are a helpful task management assistant.")

/-- `run_agent` from `agent.py`: prepend the system prompt, make the
initial chat-completions call, then run the tool-call loop.  `fuel`
bounds how many further rounds we unfold; the source loop itself is
unbounded. -/
def run_agent (gw : Gateway) (now : Nat) (user_id : String)
    (messages : List TEntry) (db : TaskDB) (fuel : Nat) :
    Option (Except AgentError AgentResult × TaskDB × List TEntry) :=
  let full := systemEntry :: messages
  match gw 0 full with
  | .error m => some (.error (.gatewayError m), db, full)
  | .ok am => runAgentLoop gw now user_id fuel 1 full [] am db

/-! ## Conversation store and chat handler (`main.py`)

`models.py` of phase 3 is not part of the snapshot; its `Conversation`
and `Message` tables are modelled from the spec (section 3: a
conversation has an id, owning user id and creation/update timestamps; a
message has an id, conversation id, denormalized user id, role, content
and creation timestamp), following the field style of the phase-2
`models.py`.  SQLModel timestamp fields take their `default_factory`
value at row creation; no code path updates them afterwards.  All
operations on these tables live in `main.py` and are embedded below. -/

/-- A row of the `users` table. -/
structure UserRow where
  id : String
  email : String
  name : String
  password : String
  created_at : Nat
  updated_at : Nat
  deriving DecidableEq, Repr

/-- Modelled from the spec: a row of the `conversations` table of the
missing phase-3 `models.py` — identifier, owning user identifier,
creation/update timestamps, the timestamps defaulting to the creation
time. -/
structure Conversation where
  id : Nat
  user_id : String
  created_at : Nat
  updated_at : Nat
  deriving DecidableEq, Repr

/-- Modelled from the spec: a row of the `messages` table of the missing
phase-3 `models.py` — identifier, owning conversation identifier,
denormalized owning user identifier, role, textual content, creation
timestamp.  The content is optional because `run_agent` may return a
`None` final content. -/
structure Message where
  id : Nat
  conversation_id : Nat
  user_id : String
  role : String
  content : Option String
  created_at : Nat
  deriving DecidableEq, Repr

/-- The whole persistent database: the three conversation-side tables
with their autoincrement counters, plus the task table. -/
structure DB where
  users : List UserRow
  nextConvId : Nat
  conversations : List Conversation
  nextMsgId : Nat
  messages : List Message
  taskdb : TaskDB
  deriving DecidableEq, Repr

/-- The failure modes of the `chat` endpoint: the 404 for a conversation
that does not exist or belongs to another user, and the catch-all 500
wrapping any other exception. -/
inductive ChatError where
  | notFound
  | internalError
  deriving DecidableEq, Repr

/-- The request body of the `chat` endpoint (`ChatRequest` in
`main.py`): an optional conversation id and the message text, with no
constraint on the text. -/
structure ChatRequest where
  conversation_id : Option Nat
  message : String
  deriving DecidableEq, Repr

/-- The response body of the `chat` endpoint (`ChatResponse`). -/
structure ChatResponse where
  conversation_id : Nat
  response : Option String
  tool_calls : List ToolLogEntry
  deriving DecidableEq, Repr

/-- The auto-creation of a missing user at the top of `chat`: if no user
row has the given id, insert one stamped with the current time. -/
def ensureUser (now : Nat) (user_id : String) (db : DB) : DB :=
  match db.users.find? (fun u => u.id == user_id) with
  | some _ => db
  | none =>
      { db with
        users := db.users ++
          [⟨user_id, user_id ++ "@demo.local", user_id, "demo-password-hash",
            now, now⟩] }

/-- The get-or-create conversation step of `chat`: an explicit id must
name a conversation of the caller (else the 404 `HTTPException`); with no
id a fresh conversation is created, stamped with the current time. -/
def resolveConversation (now : Nat) (user_id : String)
    (cid : Option Nat) (db : DB) : Except ChatError (Conversation × DB) :=
  match cid with
  | some c =>
      match db.conversations.find?
          (fun conv => conv.id == c && conv.user_id == user_id) with
      | some conv => .ok (conv, db)
      | none => .error .notFound
  | none =>
      let conv : Conversation := ⟨db.nextConvId, user_id, now, now⟩
      .ok (conv, { db with
        nextConvId := db.nextConvId + 1,
        conversations := db.conversations ++ [conv] })

/-- Insert a message `m` into a list sorted by ascending `created_at`,
after all entries with a strictly earlier timestamp and before later or
equal ones. -/
def insertByTime (m : Message) : List Message → List Message
  | [] => [m]
  | x :: xs =>
      if x.created_at < m.created_at then x :: insertByTime m xs
      else m :: x :: xs

/-- The `ORDER BY created_at` of the history and detail queries: a
stable sort of the selected rows by ascending creation time. -/
def sortByTime : List Message → List Message
  | [] => []
  | m :: ms => insertByTime m (sortByTime ms)

/-- The history fetch of `chat`: the conversation's messages ordered by
creation time. -/
def historyOf (db : DB) (cid : Nat) : List Message :=
  sortByTime (db.messages.filter (fun m => m.conversation_id == cid))

/-- The message array handed to the agent: the fetched history as plain
role/content pairs, plus the new user message. -/
def buildTranscript (db : DB) (cid : Nat) (text : String) : List TEntry :=
  (historyOf db cid).map (fun m => mkEntry m.role m.content) ++
    [mkEntry "user" (some text)]

/-- Insert and commit one `Message` row. -/
def appendMessage (db : DB) (cid : Nat) (user_id role : String)
    (content : Option String) (time : Nat) : DB :=
  { db with
    nextMsgId := db.nextMsgId + 1,
    messages := db.messages ++
      [⟨db.nextMsgId, cid, user_id, role, content, time⟩] }

/-- The `chat` endpoint of `main.py`: ensure the user row, resolve or
create the conversation, build the transcript, persist the user message,
run the agent, persist the assistant message, and return the response.
An exception escaping `run_agent` becomes the 500 error; the writes
committed before it stay.  `now` models the turn's wall clock (the user
message is stamped `now`, the assistant message strictly later at
`now + 1`); `fuel` bounds the unfolding of the agent loop, `none`
meaning the turn is still inside it and never returns. -/
def chat (gw : Gateway) (fuel : Nat) (now : Nat) (user_id : String)
    (req : ChatRequest) (db : DB) :
    Option (Except ChatError ChatResponse × DB) :=
  let db1 := ensureUser now user_id db
  match resolveConversation now user_id req.conversation_id db1 with
  | .error e => some (.error e, db1)
  | .ok (conv, db2) =>
      let transcript := buildTranscript db2 conv.id req.message
      let db3 := appendMessage db2 conv.id user_id "user" (some req.message) now
      match run_agent gw now user_id transcript db3.taskdb fuel with
      | none => none
      | some (.error _, tdb, _) =>
          some (.error .internalError, { db3 with taskdb := tdb })
      | some (.ok res, tdb, _) =>
          let db4 := appendMessage { db3 with taskdb := tdb } conv.id user_id
            "assistant" res.response (now + 1)
          some (.ok ⟨conv.id, res.response, res.tool_calls⟩, db4)

/-- Insert a conversation into a list sorted by descending `updated_at`. -/
def insertByUpdatedDesc (c : Conversation) :
    List Conversation → List Conversation
  | [] => [c]
  | x :: xs =>
      if x.updated_at > c.updated_at then x :: insertByUpdatedDesc c xs
      else c :: x :: xs

/-- The `ORDER BY updated_at DESC` of the conversation-listing query. -/
def sortByUpdatedDesc : List Conversation → List Conversation
  | [] => []
  | c :: cs => insertByUpdatedDesc c (sortByUpdatedDesc cs)

/-- The conversation-listing endpoint of `main.py`: the user's
conversations, most recently updated first. -/
def list_conversations (user_id : String) (db : DB) : List Conversation :=
  sortByUpdatedDesc (db.conversations.filter (fun c => c.user_id == user_id))

/-! ## Interleaved chat turns

`chat` holds no lock of any kind; under the async server two in-flight
turns interleave at their database and network calls.  The machine below
re-expresses one `chat` turn as its sequence of atomic database steps
(exactly the statements of `main.py`, reusing the definitions above) so
that executions of two concurrent turns under an explicit schedule can
be examined.  The shared state carries the database and a wall clock
advanced at every step, so later writes get later timestamps. -/

/-- The fixed inputs of one in-flight chat turn. -/
structure TurnSpec where
  user_id : String
  req : ChatRequest
  gw : Gateway
  fuel : Nat

/-- The local state of one in-flight chat turn: which step runs next
(0 ensure user, 1 resolve conversation, 2 read history and build the
transcript, 3 append the user message, 4 run the agent, 5 append the
assistant message; 6 done), the resolved conversation, the transcript
read at step 2, the agent result, and the final outcome. -/
structure TurnState where
  phase : Nat
  conv : Option Conversation
  transcript : List TEntry
  agentResult : Option AgentResult
  outcome : Option (Except ChatError ChatResponse)
  deriving Repr

/-- The state shared by all in-flight turns: the database and the clock. -/
structure Shared where
  db : DB
  clock : Nat
  deriving DecidableEq, Repr

/-- A turn that has not started. -/
def initTurn : TurnState := ⟨0, none, [], none, none⟩

/-- Execute the next atomic step of one turn (a no-op once the turn is
done, or when the agent loop of step 4 is still running under the given
fuel — the turn then never progresses). -/
def turnStep (td : TurnSpec) (sh : Shared) (ts : TurnState) :
    Shared × TurnState :=
  match ts.phase with
  | 0 => (⟨ensureUser sh.clock td.user_id sh.db, sh.clock + 1⟩,
          { ts with phase := 1 })
  | 1 =>
      match resolveConversation sh.clock td.user_id td.req.conversation_id
          sh.db with
      | .error e =>
          (⟨sh.db, sh.clock + 1⟩,
           { ts with phase := 6, outcome := some (.error e) })
      | .ok (conv, db') =>
          (⟨db', sh.clock + 1⟩, { ts with phase := 2, conv := some conv })
  | 2 =>
      match ts.conv with
      | none => (sh, ts)
      | some conv =>
          (⟨sh.db, sh.clock + 1⟩,
           { ts with
             phase := 3,
             transcript := buildTranscript sh.db conv.id td.req.message })
  | 3 =>
      match ts.conv with
      | none => (sh, ts)
      | some conv =>
          (⟨appendMessage sh.db conv.id td.user_id "user"
              (some td.req.message) sh.clock, sh.clock + 1⟩,
           { ts with phase := 4 })
  | 4 =>
      match run_agent td.gw sh.clock td.user_id ts.transcript
          sh.db.taskdb td.fuel with
      | none => (sh, ts)
      | some (.error _, tdb, _) =>
          (⟨{ sh.db with taskdb := tdb }, sh.clock + 1⟩,
           { ts with phase := 6, outcome := some (.error .internalError) })
      | some (.ok res, tdb, _) =>
          (⟨{ sh.db with taskdb := tdb }, sh.clock + 1⟩,
           { ts with phase := 5, agentResult := some res })
  | 5 =>
      match ts.conv, ts.agentResult with
      | some conv, some res =>
          (⟨appendMessage sh.db conv.id td.user_id "assistant"
              res.response sh.clock, sh.clock + 1⟩,
           { ts with
             phase := 6,
             outcome := some (.ok ⟨conv.id, res.response, res.tool_calls⟩) })
      | _, _ => (sh, ts)
  | _ => (sh, ts)

/-- Run two concurrent turns under an explicit schedule: `false`
schedules the next step of the first turn, `true` of the second. -/
def runTwo (t1 t2 : TurnSpec) :
    List Bool → Shared → TurnState → TurnState →
    Shared × TurnState × TurnState
  | [], sh, s1, s2 => (sh, s1, s2)
  | b :: rest, sh, s1, s2 =>
      if b then
        let (sh', s2') := turnStep t2 sh s2
        runTwo t1 t2 rest sh' s1 s2'
      else
        let (sh', s1') := turnStep t1 sh s1
        runTwo t1 t2 rest sh' s1' s2

/-! ## Concrete gateways and arguments used in the theorems -/

/-- A tool-call request for `list_tasks` with no arguments. -/
def listCall : ToolCallReq := ⟨"call_0", "list_tasks", noArgs⟩

/-- A gateway that requests a tool call on every completion call and
never produces a final reply. -/
def alwaysToolsGw : Gateway := fun _ _ => .ok ⟨none, [listCall]⟩

/-- A gateway that replies with the given text immediately, requesting
no tools. -/
def replyGw (text : String) : Gateway := fun _ _ => .ok ⟨some text, []⟩

/-- A gateway whose completion call raises (timeout, quota, malformed
response — the single provider-failure kind). -/
def failGw : Gateway := fun _ _ => .error "connection error"

/-- A gateway that requests the single given tool call on the first
completion call and replies with the given text on the second. -/
def oneCallGw (c : ToolCallReq) (text : String) : Gateway :=
  fun i _ => if i == 0 then .ok ⟨none, [c]⟩ else .ok ⟨some text, []⟩

/-- The argument object `{"task_id": tid}`. -/
def tidArgs (tid : Int) : ToolArgs := ⟨none, none, none, some tid⟩

/-- The task table rows not owned by the given user. -/
def othersTasks (u : String) (ts : List Task) : List Task :=
  ts.filter (fun t => t.user_id != u)

/-- The task table after a dispatched tool execution: the new table on
success, the unchanged one when the handler raised. -/
def toolResultDB (db : TaskDB) : Except PyError (JValue × TaskDB) → TaskDB
  | .ok (_, db') => db'
  | .error _ => db

/-- The payload of a dispatched tool execution, when it did not raise. -/
def toolResultVal : Except PyError (JValue × TaskDB) → Option JValue
  | .ok (v, _) => some v
  | .error _ => none

/-! ## Concrete fixtures for the closed instances -/

/-- A completely empty database. -/
def emptyDB : DB := ⟨[], 1, [], 1, [], ⟨1, []⟩⟩

/-- The database after a chat turn has resolved or failed: its final
state, or the input state when the turn never returns. -/
def turnDB (gw : Gateway) (fuel now : Nat) (user_id : String)
    (req : ChatRequest) (db : DB) : DB :=
  match chat gw fuel now user_id req db with
  | some (_, db') => db'
  | none => db

/-- The user row `chat` auto-creates for id `alice` at time 0. -/
def aliceRow : UserRow :=
  ⟨"alice", "alice@demo.local", "alice", "demo-password-hash", 0, 0⟩

/-- A database holding the user `alice` and her empty conversation 1. -/
def convDB : DB := ⟨[aliceRow], 2, [⟨1, "alice", 0, 0⟩], 1, [], ⟨1, []⟩⟩

/-- First interleaved turn: message `one` to conversation 1, a gateway
replying `r1` at once. -/
def turnOne : TurnSpec := ⟨"alice", ⟨some 1, "one"⟩, replyGw "r1", 1⟩

/-- Second interleaved turn: message `two` to conversation 1, a gateway
replying `r2` at once. -/
def turnTwo : TurnSpec := ⟨"alice", ⟨some 1, "two"⟩, replyGw "r2", 1⟩

/-- A legal schedule of the two turns' atomic steps: the first turn runs
through its user-message append, the second turn reads the history and
builds its transcript, the first turn then finishes (appending its
assistant message), and the second turn finishes afterwards. -/
def interleaving : List Bool :=
  [false, false, false, false, true, true, true, false, false,
   true, true, true]

/-- The shared and per-turn final states of the interleaved execution. -/
def c9run : Shared × TurnState × TurnState :=
  runTwo turnOne turnTwo interleaving ⟨convDB, 1⟩ initTurn initTurn

/-! ## Basic lemmas about the tool layer and the agent loop -/

/-- Dispatching `list_tasks` with no arguments lists the caller's tasks
and leaves the store unchanged. -/
theorem execute_tool_list_all (now : Nat) (u : String) (db : TaskDB) :
    execute_tool now u "list_tasks" noArgs db =
      .ok (.arr ((db.tasks.filter (fun t => t.user_id == u)).map taskToObj),
        db) := rfl

/-- When the assistant message carries no tool calls the loop exits at
once with the final content and the accumulated log, for any fuel. -/
theorem runAgentLoop_done (gw : Gateway) (now : Nat) (u : String)
    (fuel callIdx : Nat) (msgs : List TEntry) (log : List ToolLogEntry)
    (content : Option String) (db : TaskDB) :
    runAgentLoop gw now u fuel callIdx msgs log ⟨content, []⟩ db =
      some (.ok ⟨content, log⟩, db, msgs) := by
  cases fuel <;> rfl

/-- Against a gateway that requests a tool call on every completion, the
loop is still running after any number of further rounds. -/
theorem runAgentLoop_alwaysTools (now : Nat) (u : String) :
    ∀ (fuel callIdx : Nat) (msgs : List TEntry) (log : List ToolLogEntry)
      (db : TaskDB),
    runAgentLoop alwaysToolsGw now u fuel callIdx msgs log
      ⟨none, [listCall]⟩ db = none := by
  intro fuel
  induction fuel with
  | zero => intro callIdx msgs log db; rfl
  | succ n ih =>
      intro callIdx msgs log db
      rw [runAgentLoop]
      simp only [listCall, execCalls, execute_tool_list_all]
      exact ih (callIdx + 1) _ _ _

/-- Dispatching a name outside the registry returns the serialized
unknown-tool error payload and leaves the store unchanged. -/
theorem execute_tool_unknown (now : Nat) (u : String) (name : String)
    (args : ToolArgs) (db : TaskDB)
    (h : ¬ name ∈ (["add_task", "list_tasks", "complete_task",
        "delete_task", "update_task"] : List String)) :
    execute_tool now u name args db =
      .ok (.obj [("error", .s ("Unknown tool: " ++ name))], db) := by
  simp only [List.mem_cons, List.not_mem_nil, or_false, not_or] at h
  obtain ⟨h1, h2, h3, h4, h5⟩ := h
  simp [execute_tool, h1, h2, h3, h4, h5]

/-- Dispatching `add_task` without the required `title` raises
`KeyError("title")` instead of returning an error payload. -/
theorem execute_tool_add_missing (now : Nat) (u : String) (args : ToolArgs)
    (db : TaskDB) (htitle : args.title = none) :
    execute_tool now u "add_task" args db = .error (.keyError "title") := by
  simp [execute_tool, add_task, getTitle, htitle, Bind.bind, Except.bind]

/-! ## C1 — the loop bound -/

/-- C1 counterexample: the claim says a model that returns tool requests
on every call makes the turn end in a `Failed` state with
`LoopBoundExceeded` after exactly the configured maximum number of
rounds (a small constant, 5–10 per the spec).  In the code the
`while assistant_message.tool_calls` loop has no bound at all: against
such a model, `run_agent` is still running after 20 rounds — more than
any configured maximum — and its result type has no failure outcome for
a loop bound, so no such transition exists. -/
theorem c1_counterexample :
    run_agent alwaysToolsGw 0 "alice" [] ⟨1, []⟩ 20 = none :=
  runAgentLoop_alwaysTools 0 "alice" 20 1 [systemEntry] [] ⟨1, []⟩

/-- C1 amended: `run_agent` has no iteration bound.  A model gateway
that returns a tool request on every call makes the orchestration loop
run forever: for every fuel bound, the loop has not produced any outcome
within that many rounds; the loop terminates only when some call returns
no tool calls.  No `Failed`/`LoopBoundExceeded` state exists in the
code. -/
theorem c1_amended (fuel now : Nat) (u : String) (msgs : List TEntry)
    (db : TaskDB) :
    run_agent alwaysToolsGw now u msgs db fuel = none :=
  runAgentLoop_alwaysTools now u fuel 1 (systemEntry :: msgs) [] db

/-! ## C2 — missing required fields and unknown tool names -/

/-- C2 counterexample: the claim says a tool invocation whose raw
arguments are missing a required field produces a serialized `ToolError`
result and is never raised to the caller.  In the code `add_task` reads
`args["title"]` unguarded: dispatching `add_task` with no arguments
raises `KeyError("title")` rather than returning an error payload. -/
theorem c2_counterexample :
    execute_tool 0 "alice" "add_task" noArgs ⟨1, []⟩ =
      .error (.keyError "title") := rfl

/-- C2 amended: only the unknown-tool half of the claim holds.  A call
with an unknown tool name yields the serialized
`{"error": "Unknown tool: ..."}` payload, which the loop appends to the
transcript as the tool's result and records in the log, and the turn
still completes; but a call with a missing required field (`add_task`
without `title`) raises `KeyError`, which propagates out of
`run_agent` to its caller and aborts the turn. -/
theorem c2_amended (now : Nat) (u : String) (args : ToolArgs) (db : TaskDB)
    (name text : String) (fuel : Nat)
    (htitle : args.title = none)
    (hname : ¬ name ∈ (["add_task", "list_tasks", "complete_task",
        "delete_task", "update_task"] : List String)) :
    execute_tool now u "add_task" args db = .error (.keyError "title") ∧
    execute_tool now u name args db =
      .ok (.obj [("error", .s ("Unknown tool: " ++ name))], db) ∧
    run_agent (oneCallGw ⟨"c1", name, args⟩ text) now u [] db (fuel + 1) =
      some (.ok ⟨some text,
          [⟨name, args, .obj [("error", .s ("Unknown tool: " ++ name))]⟩]⟩, db,
        [systemEntry, assistantCallsEntry ⟨none, [⟨"c1", name, args⟩]⟩,
         toolResultEntry "c1" (.obj [("error", .s ("Unknown tool: " ++ name))])]) ∧
    run_agent (oneCallGw ⟨"c1", "add_task", args⟩ text) now u [] db (fuel + 1) =
      some (.error (.keyError "title"), db,
        [systemEntry, assistantCallsEntry ⟨none, [⟨"c1", "add_task", args⟩]⟩]) := by
  refine ⟨execute_tool_add_missing now u args db htitle,
    execute_tool_unknown now u name args db hname, ?_, ?_⟩
  · rw [run_agent]
    norm_num [oneCallGw]
    rw [runAgentLoop]
    simp only [execCalls, execute_tool_unknown now u name args db hname]
    norm_num [oneCallGw, runAgentLoop_done]
  · rw [run_agent]
    norm_num [oneCallGw]
    rw [runAgentLoop]
    simp only [execCalls, execute_tool_add_missing now u args db htitle]
    simp

/-- C2 witness: the amended statement instantiated at `add_task` with no
arguments and the unknown name `bogus` against an empty store. -/
theorem c2_witness :
    noArgs.title = none ∧
    ¬ "bogus" ∈ (["add_task", "list_tasks", "complete_task",
        "delete_task", "update_task"] : List String) ∧
    (execute_tool 0 "alice" "add_task" noArgs ⟨1, []⟩ =
        .error (.keyError "title") ∧
      execute_tool 0 "alice" "bogus" noArgs ⟨1, []⟩ =
        .ok (.obj [("error", .s ("Unknown tool: " ++ "bogus"))], ⟨1, []⟩) ∧
      run_agent (oneCallGw ⟨"c1", "bogus", noArgs⟩ "done") 0 "alice" []
          ⟨1, []⟩ (0 + 1) =
        some (.ok ⟨some "done",
            [⟨"bogus", noArgs, .obj [("error", .s ("Unknown tool: " ++ "bogus"))]⟩]⟩,
          ⟨1, []⟩,
          [systemEntry, assistantCallsEntry ⟨none, [⟨"c1", "bogus", noArgs⟩]⟩,
           toolResultEntry "c1"
             (.obj [("error", .s ("Unknown tool: " ++ "bogus"))])]) ∧
      run_agent (oneCallGw ⟨"c1", "add_task", noArgs⟩ "done") 0 "alice" []
          ⟨1, []⟩ (0 + 1) =
        some (.error (.keyError "title"), ⟨1, []⟩,
          [systemEntry,
           assistantCallsEntry ⟨none, [⟨"c1", "add_task", noArgs⟩]⟩])) :=
  ⟨rfl, by decide,
    c2_amended 0 "alice" noArgs ⟨1, []⟩ "bogus" "done" 0 rfl (by decide)⟩

/-! ## Lemmas about the chat handler's setup steps -/

/-- Auto-creating a missing user row touches no messages. -/
theorem ensureUser_messages (now : Nat) (u : String) (db : DB) :
    (ensureUser now u db).messages = db.messages := by
  unfold ensureUser; cases db.users.find? (fun x => x.id == u) <;> rfl

/-- Auto-creating a missing user row keeps the message id counter. -/
theorem ensureUser_nextMsgId (now : Nat) (u : String) (db : DB) :
    (ensureUser now u db).nextMsgId = db.nextMsgId := by
  unfold ensureUser; cases db.users.find? (fun x => x.id == u) <;> rfl

/-- Auto-creating a missing user row touches no conversations. -/
theorem ensureUser_conversations (now : Nat) (u : String) (db : DB) :
    (ensureUser now u db).conversations = db.conversations := by
  unfold ensureUser; cases db.users.find? (fun x => x.id == u) <;> rfl

/-- A successful conversation resolution touches neither messages nor
tasks nor users: it at most appends a fresh conversation row. -/
theorem resolveConversation_ok (now : Nat) (u : String) (cid : Option Nat)
    (db db2 : DB) (conv : Conversation)
    (h : resolveConversation now u cid db = .ok (conv, db2)) :
    db2.messages = db.messages ∧ db2.taskdb = db.taskdb ∧
    db2.nextMsgId = db.nextMsgId ∧ db2.users = db.users := by
  cases cid with
  | none =>
      simp only [resolveConversation, Except.ok.injEq, Prod.mk.injEq] at h
      obtain ⟨-, h2⟩ := h
      subst h2
      exact ⟨rfl, rfl, rfl, rfl⟩
  | some c =>
      simp only [resolveConversation] at h
      cases hf : db.conversations.find?
          (fun conv => conv.id == c && conv.user_id == u) with
      | none => rw [hf] at h; exact absurd h (by simp)
      | some conv' =>
          rw [hf] at h
          simp only [Except.ok.injEq, Prod.mk.injEq] at h
          obtain ⟨-, h2⟩ := h
          subst h2
          exact ⟨rfl, rfl, rfl, rfl⟩

/-! ## C3 — orchestrator failure after the user message is persisted -/

/-- C3: when the orchestrator raises after the user message was
committed (a gateway failure, or the `KeyError` of C2 — the only failure
kinds the code has; no `LoopBoundExceeded` exists, cf. C1), the turn
returns the structured 500 error, and the final database's message log
is the pre-turn log plus exactly the persisted user message: the user
message is not rolled back and no assistant message is appended, leaving
the conversation resumable. -/
theorem c3_failure_keeps_user_message (gw : Gateway) (fuel now : Nat)
    (u : String) (req : ChatRequest) (db db2 : DB) (conv : Conversation)
    (e : AgentError) (tdb : TaskDB) (tr : List TEntry)
    (hconv : resolveConversation now u req.conversation_id
        (ensureUser now u db) = .ok (conv, db2))
    (hagent : run_agent gw now u (buildTranscript db2 conv.id req.message)
        (appendMessage db2 conv.id u "user" (some req.message) now).taskdb
        fuel = some (.error e, tdb, tr)) :
    chat gw fuel now u req db =
      some (.error .internalError,
        { appendMessage db2 conv.id u "user" (some req.message) now with
          taskdb := tdb }) ∧
    ({ appendMessage db2 conv.id u "user" (some req.message) now with
        taskdb := tdb } : DB).messages =
      db.messages ++
        [⟨db2.nextMsgId, conv.id, u, "user", some req.message, now⟩] := by
  constructor
  · simp only [chat]
    rw [hconv]
    simp only
    rw [hagent]
  · have h1 := resolveConversation_ok now u req.conversation_id
      (ensureUser now u db) db2 conv hconv
    simp [appendMessage, h1.1, ensureUser_messages]

/-- C3 witness: a failing gateway on a fresh conversation of an empty
database, at fuel 0. -/
theorem c3_witness :
    resolveConversation 0 "alice" none (ensureUser 0 "alice" emptyDB) =
      .ok (⟨1, "alice", 0, 0⟩, convDB) ∧
    run_agent failGw 0 "alice" (buildTranscript convDB 1 "hi")
        (appendMessage convDB 1 "alice" "user" (some "hi") 0).taskdb 0 =
      some (.error (.gatewayError "connection error"), ⟨1, []⟩,
        [systemEntry, mkEntry "user" (some "hi")]) ∧
    (chat failGw 0 0 "alice" ⟨none, "hi"⟩ emptyDB =
        some (.error .internalError,
          { appendMessage convDB 1 "alice" "user" (some "hi") 0 with
            taskdb := ⟨1, []⟩ }) ∧
      ({ appendMessage convDB 1 "alice" "user" (some "hi") 0 with
          taskdb := ⟨1, []⟩ } : DB).messages =
        emptyDB.messages ++
          [⟨convDB.nextMsgId, 1, "alice", "user", some "hi", 0⟩]) :=
  ⟨rfl, rfl,
    c3_failure_keeps_user_message failGw 0 0 "alice" ⟨none, "hi"⟩ emptyDB
      convDB ⟨1, "alice", 0, 0⟩ (.gatewayError "connection error") ⟨1, []⟩
      [systemEntry, mkEntry "user" (some "hi")] rfl rfl⟩

/-! ## C4 — tool calls naming a non-existent task -/

/-- Completing a task the caller does not have yields the not-found
payload and leaves the store untouched. -/
theorem complete_task_missing (u : String) (tid : Int) (db : TaskDB)
    (h : findTask u tid db.tasks = none) :
    complete_task u (tidArgs tid) db = .ok (errNotFound, db) := by
  simp [complete_task, getTaskId, tidArgs, h, Bind.bind, Except.bind]

/-- Deleting a task the caller does not have yields the not-found
payload and leaves the store untouched. -/
theorem delete_task_missing (u : String) (tid : Int) (db : TaskDB)
    (h : findTask u tid db.tasks = none) :
    delete_task u (tidArgs tid) db = .ok (errNotFound, db) := by
  simp [delete_task, getTaskId, tidArgs, h, Bind.bind, Except.bind]

/-- Updating a task the caller does not have yields the not-found
payload and leaves the store untouched. -/
theorem update_task_missing (u : String) (tid : Int) (db : TaskDB)
    (h : findTask u tid db.tasks = none) :
    update_task u (tidArgs tid) db = .ok (errNotFound, db) := by
  simp [update_task, getTaskId, tidArgs, h, Bind.bind, Except.bind]

/-- The dispatcher routes `complete_task` to its handler. -/
theorem execute_tool_complete (now : Nat) (u : String) (args : ToolArgs)
    (db : TaskDB) :
    execute_tool now u "complete_task" args db = complete_task u args db := rfl

/-- C4: a `complete_task`, `delete_task` or `update_task` call whose
`task_id` names no task of the calling user returns the serialized
`ToolError` payload (`{"error": "Task not found"}`), leaves the task
store unchanged, and — per the orchestration loop — the turn proceeds to
the next round and completes with the model's final reply, the error
payload recorded in the turn's tool-call log. -/
theorem c4_nonexistent_task (now : Nat) (u : String) (tid : Int)
    (db : TaskDB) (text : String) (fuel : Nat)
    (h : findTask u tid db.tasks = none) :
    complete_task u (tidArgs tid) db = .ok (errNotFound, db) ∧
    delete_task u (tidArgs tid) db = .ok (errNotFound, db) ∧
    update_task u (tidArgs tid) db = .ok (errNotFound, db) ∧
    run_agent (oneCallGw ⟨"c1", "complete_task", tidArgs tid⟩ text) now u []
        db (fuel + 1) =
      some (.ok ⟨some text, [⟨"complete_task", tidArgs tid, errNotFound⟩]⟩, db,
        [systemEntry,
         assistantCallsEntry ⟨none, [⟨"c1", "complete_task", tidArgs tid⟩]⟩,
         toolResultEntry "c1" errNotFound]) := by
  refine ⟨complete_task_missing u tid db h, delete_task_missing u tid db h,
    update_task_missing u tid db h, ?_⟩
  rw [run_agent]
  norm_num [oneCallGw]
  rw [runAgentLoop]
  simp only [execCalls, execute_tool_complete, complete_task_missing u tid db h]
  norm_num [oneCallGw, runAgentLoop_done]

/-- C4 witness: user `alice` completing task 1, which exists but belongs
to `bob`. -/
theorem c4_witness :
    findTask "alice" 1
      (⟨2, [⟨1, "bob", "write report", "", false, 0⟩]⟩ : TaskDB).tasks =
      none ∧
    (complete_task "alice" (tidArgs 1)
        ⟨2, [⟨1, "bob", "write report", "", false, 0⟩]⟩ =
        .ok (errNotFound, ⟨2, [⟨1, "bob", "write report", "", false, 0⟩]⟩) ∧
      delete_task "alice" (tidArgs 1)
        ⟨2, [⟨1, "bob", "write report", "", false, 0⟩]⟩ =
        .ok (errNotFound, ⟨2, [⟨1, "bob", "write report", "", false, 0⟩]⟩) ∧
      update_task "alice" (tidArgs 1)
        ⟨2, [⟨1, "bob", "write report", "", false, 0⟩]⟩ =
        .ok (errNotFound, ⟨2, [⟨1, "bob", "write report", "", false, 0⟩]⟩) ∧
      run_agent (oneCallGw ⟨"c1", "complete_task", tidArgs 1⟩ "done") 0
          "alice" [] ⟨2, [⟨1, "bob", "write report", "", false, 0⟩]⟩ (0 + 1) =
        some (.ok ⟨some "done", [⟨"complete_task", tidArgs 1, errNotFound⟩]⟩,
          ⟨2, [⟨1, "bob", "write report", "", false, 0⟩]⟩,
          [systemEntry,
           assistantCallsEntry ⟨none, [⟨"c1", "complete_task", tidArgs 1⟩]⟩,
           toolResultEntry "c1" errNotFound])) :=
  ⟨by decide, c4_nonexistent_task 0 "alice" 1 _ "done" 0 (by decide)⟩

/-! ## More chat-handler lemmas -/

/-- Committing a message row touches no conversation row. -/
theorem appendMessage_conversations (db : DB) (cid : Nat) (u role : String)
    (content : Option String) (t : Nat) :
    (appendMessage db cid u role content t).conversations =
      db.conversations := rfl

/-- Resolving an explicit conversation id leaves the database entirely
unchanged when it succeeds. -/
theorem resolveConversation_some_eq (now : Nat) (u : String) (c : Nat)
    (db db2 : DB) (conv : Conversation)
    (h : resolveConversation now u (some c) db = .ok (conv, db2)) :
    db2 = db := by
  simp only [resolveConversation] at h
  cases hf : db.conversations.find?
      (fun conv => conv.id == c && conv.user_id == u) with
  | none => rw [hf] at h; exact absurd h (by simp)
  | some conv' =>
      rw [hf] at h
      simp only [Except.ok.injEq, Prod.mk.injEq] at h
      exact h.2.symm

/-- Every returning chat turn either failed conversation resolution and
changed neither messages nor conversations, or resolved a conversation
and appended to the message log exactly the user message (on orchestrator
failure) or the user message followed by the assistant message (on
success), in both cases leaving every conversation row as it was after
resolution. -/
theorem chat_messages_cases (gw : Gateway) (fuel now : Nat) (u : String)
    (req : ChatRequest) (db : DB) (r : Except ChatError ChatResponse)
    (db' : DB) (h : chat gw fuel now u req db = some (r, db')) :
    (∃ e, resolveConversation now u req.conversation_id
        (ensureUser now u db) = .error e ∧
      db'.messages = db.messages ∧ db'.conversations = db.conversations) ∨
    (∃ conv db2, resolveConversation now u req.conversation_id
        (ensureUser now u db) = .ok (conv, db2) ∧
      (db'.messages = db.messages ++
          [⟨db2.nextMsgId, conv.id, u, "user", some req.message, now⟩] ∨
        ∃ content, db'.messages = db.messages ++
          [⟨db2.nextMsgId, conv.id, u, "user", some req.message, now⟩,
           ⟨db2.nextMsgId + 1, conv.id, u, "assistant", content, now + 1⟩]) ∧
      db'.conversations = db2.conversations) := by
  simp only [chat] at h
  cases hconv : resolveConversation now u req.conversation_id
      (ensureUser now u db) with
  | error e =>
      rw [hconv] at h
      simp only [Option.some.injEq, Prod.mk.injEq] at h
      obtain ⟨-, h2⟩ := h
      subst h2
      exact Or.inl ⟨e, rfl, ensureUser_messages now u db,
        ensureUser_conversations now u db⟩
  | ok val =>
      obtain ⟨conv, db2⟩ := val
      rw [hconv] at h
      simp only at h
      have hmsg := (resolveConversation_ok now u req.conversation_id
        (ensureUser now u db) db2 conv hconv).1
      rw [ensureUser_messages] at hmsg
      refine Or.inr ⟨conv, db2, rfl, ?_⟩
      cases hrun : run_agent gw now u (buildTranscript db2 conv.id req.message)
          (appendMessage db2 conv.id u "user" (some req.message) now).taskdb
          fuel with
      | none => rw [hrun] at h; exact absurd h (by simp)
      | some val2 =>
          obtain ⟨res, tdb, tr⟩ := val2
          rw [hrun] at h
          cases res with
          | error e =>
              simp only [Option.some.injEq, Prod.mk.injEq] at h
              obtain ⟨-, h2⟩ := h
              subst h2
              exact ⟨Or.inl (by simp [appendMessage, hmsg]),
                by simp [appendMessage]⟩
          | ok res =>
              simp only [Option.some.injEq, Prod.mk.injEq] at h
              obtain ⟨-, h2⟩ := h
              subst h2
              exact ⟨Or.inr ⟨res.response, by simp [appendMessage, hmsg]⟩,
                by simp [appendMessage]⟩

/-! ## C6 — a first-call final reply persists exactly two messages -/

/-- C6: when the first Model Gateway call of a turn returns a final
reply (no tool calls), the turn succeeds and the final message log is
the pre-turn log plus exactly two rows: the user-role message carrying
the request text and the assistant-role message carrying the reply, in
that order — no other message rows are created. -/
theorem c6_first_reply_two_messages (gw : Gateway) (fuel now : Nat)
    (u : String) (req : ChatRequest) (db db2 : DB) (conv : Conversation)
    (content : Option String)
    (hconv : resolveConversation now u req.conversation_id
        (ensureUser now u db) = .ok (conv, db2))
    (hgw : gw 0 (systemEntry :: buildTranscript db2 conv.id req.message) =
        .ok ⟨content, []⟩) :
    ∃ db4 : DB,
      chat gw fuel now u req db = some (.ok ⟨conv.id, content, []⟩, db4) ∧
      db4.messages = db.messages ++
        [⟨db2.nextMsgId, conv.id, u, "user", some req.message, now⟩,
         ⟨db2.nextMsgId + 1, conv.id, u, "assistant", content, now + 1⟩] := by
  have hrun : run_agent gw now u (buildTranscript db2 conv.id req.message)
      (appendMessage db2 conv.id u "user" (some req.message) now).taskdb
      fuel =
      some (.ok ⟨content, []⟩,
        (appendMessage db2 conv.id u "user" (some req.message) now).taskdb,
        systemEntry :: buildTranscript db2 conv.id req.message) := by
    rw [run_agent, hgw]
    simp only
    rw [runAgentLoop_done]
  refine ⟨appendMessage
      (appendMessage db2 conv.id u "user" (some req.message) now)
      conv.id u "assistant" content (now + 1), ?_, ?_⟩
  · simp only [chat]
    rw [hconv]
    simp only
    rw [hrun]
  · have h1 := resolveConversation_ok now u req.conversation_id
      (ensureUser now u db) db2 conv hconv
    simp [appendMessage, h1.1, ensureUser_messages]

/-- C6 witness: an immediately replying gateway on a fresh conversation
of an empty database. -/
theorem c6_witness :
    resolveConversation 0 "alice" none (ensureUser 0 "alice" emptyDB) =
      .ok (⟨1, "alice", 0, 0⟩, convDB) ∧
    replyGw "hi" 0 (systemEntry :: buildTranscript convDB 1 "hello") =
      .ok ⟨some "hi", []⟩ ∧
    (∃ db4 : DB,
      chat (replyGw "hi") 1 0 "alice" ⟨none, "hello"⟩ emptyDB =
        some (.ok ⟨1, some "hi", []⟩, db4) ∧
      db4.messages = emptyDB.messages ++
        [⟨convDB.nextMsgId, 1, "alice", "user", some "hello", 0⟩,
         ⟨convDB.nextMsgId + 1, 1, "alice", "assistant", some "hi", 0 + 1⟩]) :=
  ⟨rfl, rfl, c6_first_reply_two_messages (replyGw "hi") 1 0 "alice"
    ⟨none, "hello"⟩ emptyDB convDB ⟨1, "alice", 0, 0⟩ (some "hi") rfl rfl⟩

/-! ## C7 — appends and the conversation update timestamp -/

/-- C7 counterexample: the claim says appending a message updates the
parent conversation's update timestamp so that the listing order
reflects the latest append.  In the code no append touches the
conversation row.  Concretely: conversation 1 is created at time 0 and
conversation 2 at time 1; a turn at time 2 then appends two messages
(at times 2 and 3) to conversation 1 — yet conversation 1 still has
update timestamp 0, and the listing orders conversation 2 first even
though conversation 1 received the most recent append. -/
theorem c7_counterexample :
    (turnDB (replyGw "a3") 1 2 "alice" ⟨some 1, "m3"⟩
        (turnDB (replyGw "a2") 1 1 "alice" ⟨none, "m2"⟩
          (turnDB (replyGw "a1") 1 0 "alice" ⟨none, "m1"⟩
            emptyDB))).conversations.map (fun c => (c.id, c.updated_at)) =
      [(1, 0), (2, 1)] ∧
    ((turnDB (replyGw "a3") 1 2 "alice" ⟨some 1, "m3"⟩
        (turnDB (replyGw "a2") 1 1 "alice" ⟨none, "m2"⟩
          (turnDB (replyGw "a1") 1 0 "alice" ⟨none, "m1"⟩
            emptyDB))).messages.filter
        (fun m => m.conversation_id == 1)).map
        (fun m => (m.role, m.created_at)) =
      [("user", 0), ("assistant", 1), ("user", 2), ("assistant", 3)] ∧
    (list_conversations "alice" (turnDB (replyGw "a3") 1 2 "alice"
        ⟨some 1, "m3"⟩
        (turnDB (replyGw "a2") 1 1 "alice" ⟨none, "m2"⟩
          (turnDB (replyGw "a1") 1 0 "alice" ⟨none, "m1"⟩
            emptyDB)))).map (fun c => c.id) = [2, 1] :=
  ⟨rfl, rfl, rfl⟩

/-- C7 amended: a chat turn on an existing conversation leaves the
conversations table — every row including its update timestamp —
completely unchanged: message appends never update the parent
conversation, so the listing order reflects conversation creation, not
the latest append. -/
theorem c7_amended (gw : Gateway) (fuel now : Nat) (u : String) (c : Nat)
    (text : String) (db : DB) (r : Except ChatError ChatResponse) (db' : DB)
    (h : chat gw fuel now u ⟨some c, text⟩ db = some (r, db')) :
    db'.conversations = db.conversations := by
  rcases chat_messages_cases gw fuel now u ⟨some c, text⟩ db r db' h with
    ⟨e, -, -, hc⟩ | ⟨conv, db2, hconv, -, hc⟩
  · exact hc
  · have h2 := resolveConversation_some_eq now u c (ensureUser now u db) db2
      conv hconv
    rw [hc, h2, ensureUser_conversations]

/-- C7 witness: a turn on the existing conversation 1 of `convDB`. -/
theorem c7_witness :
    chat (replyGw "a3") 1 2 "alice" ⟨some 1, "m3"⟩ convDB =
      some (.ok ⟨1, some "a3", []⟩,
        turnDB (replyGw "a3") 1 2 "alice" ⟨some 1, "m3"⟩ convDB) ∧
    (turnDB (replyGw "a3") 1 2 "alice" ⟨some 1, "m3"⟩ convDB).conversations =
      convDB.conversations :=
  ⟨rfl, c7_amended (replyGw "a3") 1 2 "alice" 1 "m3" convDB
    (.ok ⟨1, some "a3", []⟩) _ rfl⟩

/-! ## C8 — empty chat messages are not rejected -/

/-- C8 counterexample: the claim says an empty message is rejected with
a validation error before any persistence.  The code's `ChatRequest`
puts no constraint on the text and `chat` has no validation: a turn with
the empty message succeeds, creating the user row and the conversation
and persisting the empty user message and the assistant reply. -/
theorem c8_counterexample :
    chat (replyGw "hi") 1 0 "alice" ⟨none, ""⟩ emptyDB =
      some (.ok ⟨1, some "hi", []⟩,
        turnDB (replyGw "hi") 1 0 "alice" ⟨none, ""⟩ emptyDB) ∧
    (turnDB (replyGw "hi") 1 0 "alice" ⟨none, ""⟩ emptyDB).users.length = 1 ∧
    (turnDB (replyGw "hi") 1 0 "alice" ⟨none, ""⟩
        emptyDB).conversations.length = 1 ∧
    (turnDB (replyGw "hi") 1 0 "alice" ⟨none, ""⟩ emptyDB).messages.map
      (fun m => (m.role, m.content)) =
      [("user", some ""), ("assistant", some "hi")] :=
  ⟨rfl, rfl, rfl, rfl⟩

/-- C8 amended: an empty message is accepted like any other: whenever a
turn with the empty message text returns at all, the empty user message
has been persisted to the conversation — there is no validation path. -/
theorem c8_amended (gw : Gateway) (fuel now : Nat) (u : String)
    (cid : Option Nat) (db db2 : DB) (conv : Conversation)
    (r : Except ChatError ChatResponse) (db' : DB)
    (hconv : resolveConversation now u cid (ensureUser now u db) =
      .ok (conv, db2))
    (h : chat gw fuel now u ⟨cid, ""⟩ db = some (r, db')) :
    (⟨db2.nextMsgId, conv.id, u, "user", some "", now⟩ : Message) ∈
      db'.messages := by
  rcases chat_messages_cases gw fuel now u ⟨cid, ""⟩ db r db' h with
    ⟨e, he, -, -⟩ | ⟨conv', db2', hconv', hm, -⟩
  · rw [hconv] at he; cases he
  · rw [hconv] at hconv'
    simp only [Except.ok.injEq, Prod.mk.injEq] at hconv'
    obtain ⟨h1, h2⟩ := hconv'
    subst h1; subst h2
    rcases hm with hm | ⟨content, hm⟩ <;> rw [hm] <;> simp

/-- C8 witness: an empty message against the empty database. -/
theorem c8_witness :
    resolveConversation 0 "alice" none (ensureUser 0 "alice" emptyDB) =
      .ok (⟨1, "alice", 0, 0⟩, convDB) ∧
    chat (replyGw "ok") 1 0 "alice" ⟨none, ""⟩ emptyDB =
      some (.ok ⟨1, some "ok", []⟩,
        turnDB (replyGw "ok") 1 0 "alice" ⟨none, ""⟩ emptyDB) ∧
    (⟨convDB.nextMsgId, 1, "alice", "user", some "", 0⟩ : Message) ∈
      (turnDB (replyGw "ok") 1 0 "alice" ⟨none, ""⟩ emptyDB).messages :=
  ⟨rfl, rfl, c8_amended (replyGw "ok") 1 0 "alice" none emptyDB convDB
    ⟨1, "alice", 0, 0⟩ (.ok ⟨1, some "ok", []⟩) _ rfl rfl⟩

/-! ## C9 — concurrent turns on one conversation are not serialized -/

/-- C9 counterexample: the claim says concurrent turns on the same
conversation are serialized by a per-conversation mutual exclusion, the
second turn's transcript containing all messages appended by the first
and never an interleaved partial view.  The code holds no lock, and
under the legal interleaving `interleaving` of two turns on conversation
1 both turns complete, the final log contains all four messages — yet
the second turn's transcript contains the first turn's user message
`one` and not its assistant message `r1`: an interleaved partial view of
the first turn. -/
theorem c9_counterexample :
    mkEntry "user" (some "one") ∈ c9run.2.2.transcript ∧
    ¬ mkEntry "assistant" (some "r1") ∈ c9run.2.2.transcript ∧
    c9run.2.1.outcome = some (.ok ⟨1, some "r1", []⟩) ∧
    c9run.2.2.outcome = some (.ok ⟨1, some "r2", []⟩) ∧
    c9run.1.db.messages.map (fun m => (m.role, m.content)) =
      [("user", some "one"), ("assistant", some "r1"),
       ("user", some "two"), ("assistant", some "r2")] :=
  ⟨by decide, by decide, rfl, rfl, rfl⟩

/-- C9 amended: chat turns are not serialized per conversation — a
turn's transcript reflects exactly the messages present when its history
read executed.  Under the exhibited interleaving both turns complete
successfully, the second turn's transcript holds only the first turn's
user message plus its own, and each append is an individually atomic
write: the final log contains all four messages in append order with
strictly increasing timestamps (4, 9, 10, 12). -/
theorem c9_amended :
    c9run.2.1.phase = 6 ∧ c9run.2.2.phase = 6 ∧
    c9run.2.2.transcript =
      [mkEntry "user" (some "one"), mkEntry "user" (some "two")] ∧
    c9run.1.db.messages.map (fun m => (m.role, m.content, m.created_at)) =
      [("user", some "one", 4), ("assistant", some "r1", 9),
       ("user", some "two", 10), ("assistant", some "r2", 12)] :=
  ⟨rfl, rfl, rfl, rfl⟩

/-! ## C10 — only user and assistant roles are ever persisted -/

/-- Inserting into a time-sorted message list adds exactly the new
element to the members. -/
theorem mem_insertByTime (m a : Message) (l : List Message) :
    a ∈ insertByTime m l ↔ a = m ∨ a ∈ l := by
  induction l with
  | nil => simp [insertByTime]
  | cons x xs ih =>
      simp only [insertByTime]
      by_cases hx : x.created_at < m.created_at
      · simp only [if_pos hx, List.mem_cons, ih]
        tauto
      · simp only [if_neg hx, List.mem_cons]

/-- The history ordering is a permutation membership-wise. -/
theorem mem_sortByTime (a : Message) (l : List Message) :
    a ∈ sortByTime l ↔ a ∈ l := by
  induction l with
  | nil => simp [sortByTime]
  | cons x xs ih => simp [sortByTime, mem_insertByTime, ih]

/-- Every entry of a transcript rebuilt from a role-invariant message
log has role `user` or `assistant` and carries no tool-call fields. -/
theorem buildTranscript_roles (db : DB) (cid : Nat) (text : String)
    (hinv : ∀ m ∈ db.messages, m.role = "user" ∨ m.role = "assistant")
    (e : TEntry) (he : e ∈ buildTranscript db cid text) :
    (e.role = "user" ∨ e.role = "assistant") ∧ e.tool_call_id = none ∧
    e.tool_calls = none := by
  simp only [buildTranscript, historyOf, List.mem_append, List.mem_map,
    List.mem_singleton] at he
  rcases he with ⟨m, hm, rfl⟩ | rfl
  · rw [mem_sortByTime, List.mem_filter] at hm
    exact ⟨hinv m hm.1, rfl, rfl⟩
  · exact ⟨Or.inl rfl, rfl, rfl⟩

/-- C10: a chat turn persists only `user`- and `assistant`-role message
rows (tool-role results and tool-call assistant messages live only in
the turn's in-memory transcript), so the role invariant of the message
log is preserved and any transcript later rebuilt from persisted history
contains no tool-role entry and no tool-call fields. -/
theorem c10_persisted_roles (gw : Gateway) (fuel now : Nat) (u : String)
    (req : ChatRequest) (db : DB) (r : Except ChatError ChatResponse)
    (db' : DB)
    (h : chat gw fuel now u req db = some (r, db'))
    (hinv : ∀ m ∈ db.messages, m.role = "user" ∨ m.role = "assistant") :
    (∀ m ∈ db'.messages, m.role = "user" ∨ m.role = "assistant") ∧
    (∀ (cid : Nat) (text : String) (e : TEntry),
      e ∈ buildTranscript db' cid text →
      e.role ≠ "tool" ∧ e.tool_call_id = none ∧ e.tool_calls = none) := by
  have hroles : ∀ m ∈ db'.messages, m.role = "user" ∨ m.role = "assistant" := by
    rcases chat_messages_cases gw fuel now u req db r db' h with
      ⟨e, -, hm, -⟩ | ⟨conv, db2, -, hm, -⟩
    · rw [hm]; exact hinv
    · intro m hmem
      rcases hm with hm | ⟨content, hm⟩ <;> rw [hm] at hmem <;>
        rcases List.mem_append.mp hmem with hold | hnew
      · exact hinv m hold
      · simp only [List.mem_singleton] at hnew; subst hnew; exact Or.inl rfl
      · exact hinv m hold
      · rcases List.mem_cons.mp hnew with h1 | h1
        · subst h1; exact Or.inl rfl
        · simp only [List.mem_singleton] at h1; subst h1; exact Or.inr rfl
  refine ⟨hroles, fun cid text e he => ?_⟩
  obtain ⟨h1, h2, h3⟩ := buildTranscript_roles db' cid text hroles e he
  refine ⟨?_, h2, h3⟩
  rcases h1 with h1 | h1 <;> rw [h1] <;> decide

/-- C10 witness: a successful turn on the empty database. -/
theorem c10_witness :
    chat (replyGw "hey") 1 0 "alice" ⟨none, "add milk"⟩ emptyDB =
      some (.ok ⟨1, some "hey", []⟩,
        turnDB (replyGw "hey") 1 0 "alice" ⟨none, "add milk"⟩ emptyDB) ∧
    (∀ m ∈ emptyDB.messages, m.role = "user" ∨ m.role = "assistant") ∧
    ((∀ m ∈ (turnDB (replyGw "hey") 1 0 "alice" ⟨none, "add milk"⟩
        emptyDB).messages, m.role = "user" ∨ m.role = "assistant") ∧
      (∀ (cid : Nat) (text : String) (e : TEntry),
        e ∈ buildTranscript (turnDB (replyGw "hey") 1 0 "alice"
          ⟨none, "add milk"⟩ emptyDB) cid text →
        e.role ≠ "tool" ∧ e.tool_call_id = none ∧ e.tool_calls = none)) :=
  ⟨rfl, by simp [emptyDB],
    c10_persisted_roles (replyGw "hey") 1 0 "alice" ⟨none, "add milk"⟩
      emptyDB (.ok ⟨1, some "hey", []⟩) _ rfl (by simp [emptyDB])⟩

/-! ## C5 — strict per-user scoping of the tool handlers

Every handler's query carries `Task.user_id == user_id`; the lemmas below
show the two halves of the scoping property — other users' rows are
never mutated, and the produced payload never reads them — one handler
at a time, and the claim theorem assembles them over the dispatcher. -/

/-- Searching the caller-filtered table finds the same task, since the
per-task query already requires the caller's ownership. -/
theorem findTask_filter_user (u : String) (tid : Int) (ts : List Task) :
    findTask u tid (ts.filter (fun t => t.user_id == u)) =
      findTask u tid ts := by
  induction ts with
  | nil => rfl
  | cons t ts ih =>
      simp only [findTask, List.filter_cons] at *
      by_cases hu : (t.user_id == u) = true
      · rw [if_pos hu]
        simp only [List.find?_cons]
        cases hq : ((t.id : Int) == tid && t.user_id == u) with
        | true => rfl
        | false => exact ih
      · rw [if_neg hu]
        simp only [Bool.not_eq_true] at hu
        have hq : ((t.id : Int) == tid && t.user_id == u) = false := by
          rw [hu, Bool.and_false]
        simp only [List.find?_cons, hq]
        exact ih

/-- Prepending one of the caller's own rows leaves the other users'
view unchanged. -/
theorem othersTasks_cons_own (u : String) (t : Task) (ts : List Task)
    (hu : t.user_id = u) :
    othersTasks u (t :: ts) = othersTasks u ts := by
  simp [othersTasks, List.filter_cons, hu]

/-- Appending one of the caller's own rows leaves the other users' view
unchanged. -/
theorem othersTasks_append_own (u : String) (t : Task) (ts : List Task)
    (hu : t.user_id = u) :
    othersTasks u (ts ++ [t]) = othersTasks u ts := by
  simp [othersTasks, List.filter_append, hu]

/-- Completing a task via the user-scoped query never touches another
user's rows. -/
theorem othersTasks_setCompletedFirst (u : String) (tid : Int)
    (ts : List Task) :
    othersTasks u (setCompletedFirst u tid ts) = othersTasks u ts := by
  induction ts with
  | nil => rfl
  | cons t ts ih =>
      simp only [setCompletedFirst]
      by_cases h : ((t.id : Int) == tid && t.user_id == u) = true
      · rw [if_pos h]
        have hu : t.user_id = u := beq_iff_eq.mp ((Bool.and_eq_true _ _).mp h).2
        simp [othersTasks, List.filter_cons, hu]
      · rw [if_neg h]
        simp [othersTasks, List.filter_cons] at ih ⊢
        rw [ih]

/-- Deleting a task via the user-scoped query never touches another
user's rows. -/
theorem othersTasks_deleteFirst (u : String) (tid : Int) (ts : List Task) :
    othersTasks u (deleteFirst u tid ts) = othersTasks u ts := by
  induction ts with
  | nil => rfl
  | cons t ts ih =>
      simp only [deleteFirst]
      by_cases h : ((t.id : Int) == tid && t.user_id == u) = true
      · rw [if_pos h]
        have hu : t.user_id = u := beq_iff_eq.mp ((Bool.and_eq_true _ _).mp h).2
        simp [othersTasks, List.filter_cons, hu]
      · rw [if_neg h]
        simp [othersTasks, List.filter_cons] at ih ⊢
        rw [ih]

/-- Updating a task via the user-scoped query never touches another
user's rows. -/
theorem othersTasks_updateFirst (u : String) (tid : Int)
    (title description : Option String) (ts : List Task) :
    othersTasks u (updateFirst u tid title description ts) =
      othersTasks u ts := by
  induction ts with
  | nil => rfl
  | cons t ts ih =>
      simp only [updateFirst]
      by_cases h : ((t.id : Int) == tid && t.user_id == u) = true
      · rw [if_pos h]
        have hu : t.user_id = u := beq_iff_eq.mp ((Bool.and_eq_true _ _).mp h).2
        simp [othersTasks, List.filter_cons, hu]
      · rw [if_neg h]
        simp [othersTasks, List.filter_cons] at ih ⊢
        rw [ih]

/-- Filtering to the caller's rows is idempotent. -/
theorem filter_user_idem (u : String) (ts : List Task) :
    (ts.filter (fun t => t.user_id == u)).filter (fun t => t.user_id == u) =
      ts.filter (fun t => t.user_id == u) := by
  induction ts with
  | nil => rfl
  | cons t ts ih =>
      by_cases h : (t.user_id == u) = true <;>
        simp [List.filter_cons, h, ih]

/-- The `add_task` handler is scoped to the calling user. -/
theorem addTask_scoped (now : Nat) (u : String) (args : ToolArgs)
    (db : TaskDB) :
    othersTasks u (toolResultDB db (add_task now u args db)).tasks =
      othersTasks u db.tasks ∧
    toolResultVal (add_task now u args db) =
      toolResultVal (add_task now u args
        ⟨db.nextId, db.tasks.filter (fun t => t.user_id == u)⟩) := by
  cases ht : args.title with
  | none =>
      simp [add_task, getTitle, ht, toolResultDB, toolResultVal,
        Bind.bind, Except.bind]
  | some t =>
      constructor
      · simp only [add_task, getTitle, ht, Bind.bind, Except.bind,
          toolResultDB]
        exact othersTasks_append_own u _ db.tasks rfl
      · simp [add_task, getTitle, ht, toolResultVal, Bind.bind, Except.bind]

/-- The `list_tasks` handler is scoped to the calling user. -/
theorem listTasks_scoped (u : String) (args : ToolArgs) (db : TaskDB) :
    othersTasks u (toolResultDB db (list_tasks u args db)).tasks =
      othersTasks u db.tasks ∧
    toolResultVal (list_tasks u args db) =
      toolResultVal (list_tasks u args
        ⟨db.nextId, db.tasks.filter (fun t => t.user_id == u)⟩) := by
  constructor
  · rfl
  · simp only [list_tasks, toolResultVal]
    rw [filter_user_idem]

/-- The `complete_task` handler is scoped to the calling user. -/
theorem completeTask_scoped (u : String) (args : ToolArgs) (db : TaskDB) :
    othersTasks u (toolResultDB db (complete_task u args db)).tasks =
      othersTasks u db.tasks ∧
    toolResultVal (complete_task u args db) =
      toolResultVal (complete_task u args
        ⟨db.nextId, db.tasks.filter (fun t => t.user_id == u)⟩) := by
  cases ht : args.task_id with
  | none =>
      simp [complete_task, getTaskId, ht, toolResultDB, toolResultVal,
        Bind.bind, Except.bind]
  | some tid =>
      simp only [complete_task, getTaskId, ht, Bind.bind, Except.bind]
      rw [findTask_filter_user]
      cases hf : findTask u tid db.tasks with
      | none => exact ⟨rfl, rfl⟩
      | some task =>
          exact ⟨othersTasks_setCompletedFirst u tid db.tasks, rfl⟩

/-- The `delete_task` handler is scoped to the calling user. -/
theorem deleteTask_scoped (u : String) (args : ToolArgs) (db : TaskDB) :
    othersTasks u (toolResultDB db (delete_task u args db)).tasks =
      othersTasks u db.tasks ∧
    toolResultVal (delete_task u args db) =
      toolResultVal (delete_task u args
        ⟨db.nextId, db.tasks.filter (fun t => t.user_id == u)⟩) := by
  cases ht : args.task_id with
  | none =>
      simp [delete_task, getTaskId, ht, toolResultDB, toolResultVal,
        Bind.bind, Except.bind]
  | some tid =>
      simp only [delete_task, getTaskId, ht, Bind.bind, Except.bind]
      rw [findTask_filter_user]
      cases hf : findTask u tid db.tasks with
      | none => exact ⟨rfl, rfl⟩
      | some task =>
          exact ⟨othersTasks_deleteFirst u tid db.tasks, rfl⟩

/-- The `update_task` handler is scoped to the calling user. -/
theorem updateTask_scoped (u : String) (args : ToolArgs) (db : TaskDB) :
    othersTasks u (toolResultDB db (update_task u args db)).tasks =
      othersTasks u db.tasks ∧
    toolResultVal (update_task u args db) =
      toolResultVal (update_task u args
        ⟨db.nextId, db.tasks.filter (fun t => t.user_id == u)⟩) := by
  cases ht : args.task_id with
  | none =>
      simp [update_task, getTaskId, ht, toolResultDB, toolResultVal,
        Bind.bind, Except.bind]
  | some tid =>
      simp only [update_task, getTaskId, ht, Bind.bind, Except.bind]
      rw [findTask_filter_user]
      cases hf : findTask u tid db.tasks with
      | none => exact ⟨rfl, rfl⟩
      | some task =>
          exact ⟨othersTasks_updateFirst u tid args.title args.description
            db.tasks, rfl⟩

/-- C5: for every user `u`, tool name, argument object and store state,
a dispatched tool execution neither mutates another user's tasks — the
other users' rows after the dispatch (whether it returned or raised) are
exactly the rows before — nor reads them into its result: the produced
payload equals the payload produced against a store holding only the
caller's tasks (with the same id counter).  This holds for every
argument value, including a `task_id` naming another user's task,
because every handler's query is filtered by the supplied user
identifier. -/
theorem c5_user_scoping (now : Nat) (u name : String) (args : ToolArgs)
    (db : TaskDB) :
    othersTasks u (toolResultDB db (execute_tool now u name args db)).tasks =
      othersTasks u db.tasks ∧
    toolResultVal (execute_tool now u name args db) =
      toolResultVal (execute_tool now u name args
        ⟨db.nextId, db.tasks.filter (fun t => t.user_id == u)⟩) := by
  by_cases h1 : name = "add_task"
  · subst h1; exact addTask_scoped now u args db
  by_cases h2 : name = "list_tasks"
  · subst h2; exact listTasks_scoped u args db
  by_cases h3 : name = "complete_task"
  · subst h3; exact completeTask_scoped u args db
  by_cases h4 : name = "delete_task"
  · subst h4; exact deleteTask_scoped u args db
  by_cases h5 : name = "update_task"
  · subst h5; exact updateTask_scoped u args db
  have hmem : ¬ name ∈ (["add_task", "list_tasks", "complete_task",
      "delete_task", "update_task"] : List String) := by
    simp [h1, h2, h3, h4, h5]
  rw [execute_tool_unknown now u name args db hmem,
    execute_tool_unknown now u name args _ hmem]
  exact ⟨rfl, rfl⟩

end Hackathon
